import Mathlib

/-!
Verification of the Series-Q CPU simulator core (rustframe).

The definitions in this file are shallow embeddings of the Rust sources:
`src/bus.rs` (the reference `Vec<u8>` memory device) and `src/cpu.rs`
(the `SeriesQ` CPU: ALU, access check, fault engine, priority-level
engine, and selected instruction cases of the `run` loop).

Machine integers are modelled as `Nat` with explicit reduction modulo
`2^32` (`M32`) wherever the Rust code performs 32-bit (wrapping)
arithmetic; bytes are `Nat` values produced by explicit `&&& 0xFF`
masks, exactly as in the source.  Fallible bus operations return
`Except BusError`.
-/

namespace RustFrame

/-- 2^32, the modulus of 32-bit machine arithmetic. -/
def M32 : Nat := 4294967296

/-- Bus error kinds, from `bus.rs` `enum BusError`. -/
inductive BusError where
  | AccessViolation
  | AlignmentCheck
  | InvalidAddress
deriving DecidableEq, Repr

/-- The reference memory device `Vec<u8>`: a list of byte values. -/
abbrev Mem : Type := List Nat

/-- `self.len() as u32` — the Rust cast truncates to 32 bits. -/
def vlen (m : Mem) : Nat := List.length m % M32

/-- `<Vec<u8> as Memory32>::read_b` from `bus.rs`. -/
def read_b (m : Mem) (addr : Nat) : Except BusError Nat :=
  if addr ≥ vlen m then .error .InvalidAddress
  else .ok (List.getD m addr 0)

/-- `<Vec<u8> as Memory32>::read_w` from `bus.rs`, embedded exactly as
written: the byte at `addr+3` is shifted by 3 and the byte at `addr+2`
by 8 (the source's shifts, not the little-endian 24/16). -/
def read_w (m : Mem) (addr : Nat) : Except BusError Nat :=
  if (addr + 3) % M32 ≥ vlen m then .error .InvalidAddress
  else if addr % 4 ≠ 0 then .error .AlignmentCheck
  else .ok ((List.getD m ((addr + 3) % M32) 0) <<< 3
          + (List.getD m ((addr + 2) % M32) 0) <<< 8
          + (List.getD m ((addr + 1) % M32) 0) <<< 8
          + List.getD m addr 0)

/-- `<Vec<u8> as Memory32>::write_b` from `bus.rs`. -/
def write_b (m : Mem) (addr data : Nat) : Except BusError Mem :=
  if addr ≥ vlen m then .error .InvalidAddress
  else .ok (List.set m addr data)

/-- `<Vec<u8> as Memory32>::write_w` from `bus.rs` (little-endian
byte decomposition, stores high byte first as in the source). -/
def write_w (m : Mem) (addr data : Nat) : Except BusError Mem :=
  if (addr + 3) % M32 ≥ vlen m then .error .InvalidAddress
  else if addr % 4 ≠ 0 then .error .AlignmentCheck
  else .ok (List.set (List.set (List.set (List.set m
      ((addr + 3) % M32) ((data >>> 24) &&& 0xFF))
      ((addr + 2) % M32) ((data >>> 16) &&& 0xFF))
      ((addr + 1) % M32) ((data >>> 8) &&& 0xFF))
      addr (data &&& 0xFF))

/-- Pointwise update of a `Nat`-indexed register file. -/
def upd (f : Nat → Nat) (i v : Nat) : Nat → Nat :=
  fun j => if j = i then v else f j

/-- Pointwise update of a `Nat`-indexed boolean line file. -/
def updB (f : Nat → Bool) (i : Nat) (v : Bool) : Nat → Bool :=
  fun j => if j = i then v else f j

/-- The CPU state of `struct SeriesQ` in `cpu.rs` (register files as
index functions; the bus-handle / channel fields are not part of the
sequential state). -/
structure SeriesQ where
  R : Nat → Nat
  S_selector : Nat → Nat
  S_base : Nat → Nat
  S_limit : Nat → Nat
  S_key : Nat → Nat
  S_flags : Nat → Nat
  MPK : Nat → Nat
  F : Nat → Nat
  SDTR_base : Nat
  SDTR_len : Nat
  PEBA_base : Nat
  PLBA_base : Nat
  running : Bool
  ipl : Nat → Bool
  icode : Nat → Nat

/-- `pub const PC: usize = 15` (`cpu.rs` line 6). -/
def PC : Nat := 15
/-- `pub const PS: usize = 7` (`cpu.rs` line 9). -/
def PS : Nat := 7
/-- `pub const LS: usize = 6` (`cpu.rs` line 10). -/
def LS : Nat := 6

/-- `SUPERVISOR_ACCESS: i32 = -1`, as the `u32` the CPU passes around. -/
def SUPERVISOR_ACCESS : Nat := 0xFFFFFFFF
/-- `OUT_OF_BOUNDS: i32 = -2` as `u32`. -/
def OUT_OF_BOUNDS : Nat := 0xFFFFFFFE
/-- `ILLEGAL_INSTRUCTION: i32 = -3` as `u32`. -/
def ILLEGAL_INSTRUCTION : Nat := 0xFFFFFFFD
/-- `SEGMENTATION_FAULT: i32 = -4` as `u32`. -/
def SEGMENTATION_FAULT : Nat := 0xFFFFFFFC
/-- `READ_FAULT: i32 = -5` as `u32`. -/
def READ_FAULT : Nat := 0xFFFFFFFB
/-- `WRITE_FAULT: i32 = -6` as `u32`. -/
def WRITE_FAULT : Nat := 0xFFFFFFFA

/-- `rr_reg_d` from `cpu.rs`. -/
def rr_reg_d (iword : Nat) : Nat := (iword &&& 0xF0) >>> 4
/-- `rr_reg_r` from `cpu.rs`. -/
def rr_reg_r (iword : Nat) : Nat := iword &&& 0x0F
/-- `rm_seg_s` from `cpu.rs`. -/
def rm_seg_s (iword : Nat) : Nat := (iword &&& 0xF000) >>> 12
/-- `rmx_reg_x` from `cpu.rs`. -/
def rmx_reg_x (iword : Nat) : Nat := (iword &&& 0xF00) >>> 8
/-- `rmx_idx_i` from `cpu.rs` (`iword & 0xFF` as u8). -/
def rmx_idx_i (iword : Nat) : Nat := iword &&& 0xFF

/-- `sign_u32` from `cpu.rs`. -/
def sign_u32 (x : Nat) : Bool := decide (x &&& 0x80000000 ≠ 0)

/-- Value of a `u32` reinterpreted as `i32` (for the Rust
`as i32` casts in the signed comparisons). -/
def i32 (x : Nat) : Int :=
  if x < 0x80000000 then (x : Int) else (x : Int) - (M32 : Int)

/-- `alu_add` from `cpu.rs`: wrapping 32-bit add, optional carry-in,
with the source's flag updates (PLGEVCSB) — including the source's
`carry = carry && carry_2` combination on the carry-in path. -/
def alu_add (dest src flags : Nat) (use_carry : Bool) : Nat × Nat :=
  let y0 := (dest + src) % M32
  let carry0 := decide (dest + src ≥ M32)
  let yc : Nat × Bool :=
    if flags &&& 0b00000100 ≠ 0 ∧ use_carry = true then
      ((y0 + 1) % M32, carry0 && decide (y0 + 1 ≥ M32))
    else (y0, carry0)
  let y := yc.1
  let carry := yc.2
  let f1 := if y &&& 1 = 1 then flags ||| 0b10000000 else flags &&& 0b01111111
  let f2 :=
    if src < dest then (f1 ||| 0b01000000) &&& 0b11001111
    else if src > dest then (f1 ||| 0b00100000) &&& 0b10101111
    else (f1 ||| 0b00010000) &&& 0b10011111
  let f3 :=
    if (sign_u32 src && sign_u32 dest && !(sign_u32 y))
        || (!(sign_u32 src) && !(sign_u32 dest) && sign_u32 y) then
      f2 ||| 0b00001000
    else f2 &&& 0b11110111
  let f4 := if carry then f3 ||| 0b00000100 else f3 &&& 0b11111011
  let f5 :=
    if i32 src < i32 dest then (f4 ||| 0b00000010) &&& 0b11111110
    else if i32 src > i32 dest then (f4 ||| 0b00000001) &&& 0b11111101
    else f4 &&& 0b11111100
  (y, f5)

/-- `self.MPK.contains(&self.S_key[segment])` — scan of the 16-entry
protection-key file. -/
def mpk_contains (st : SeriesQ) (k : Nat) : Bool :=
  (List.range 16).any (fun i => st.MPK i == k)

/-- `SQAddr::access_check` from `cpu.rs`. -/
def access_check (st : SeriesQ) (segment addr : Nat) (write exec : Bool) : Bool :=
  let segment_check :=
    (mpk_contains st (st.S_key segment) || decide (st.F 8 &&& 1 = 0))
    && decide (addr ≥ st.S_base segment)
    && decide (addr < st.S_limit segment)
  let read_allowed := decide (st.S_flags segment &&& 0b10000000 ≠ 0)
  let write_allowed := decide (st.S_flags segment &&& 0b01000000 ≠ 0)
  let exec_allowed := decide (st.S_flags segment &&& 0b00100000 ≠ 0)
  if st.F 8 &&& 1 ≠ 0 then
    if write then segment_check && write_allowed
    else if exec then segment_check && exec_allowed
    else segment_check && read_allowed
  else segment_check

/-- `SeriesQ::copy_segment` from `cpu.rs`. -/
def copy_segment (st : SeriesQ) (dest src : Nat) : SeriesQ :=
  { st with
    S_selector := upd st.S_selector dest (st.S_selector src),
    S_base := upd st.S_base dest (st.S_base src),
    S_limit := upd st.S_limit dest (st.S_limit src),
    S_key := upd st.S_key dest (st.S_key src),
    S_flags := upd st.S_flags dest (st.S_flags src) }

/-- `SeriesQ::sys_fault` from `cpu.rs` (record fault iword, then
escalate to priority 7 or halt when already at level 7). -/
def sys_fault (st : SeriesQ) (iword0 error_code : Nat) : SeriesQ :=
  let st1 := { st with
    F := upd (upd st.F 10 (iword0 &&& 0xFF)) 11 ((iword0 &&& 0xFF00) >>> 8) }
  if (st.F 8 &&& 0xE) >>> 1 = 7 then { st1 with running := false }
  else { st1 with
    ipl := updB st1.ipl 7 true,
    icode := upd st1.icode 7 (error_code &&& 0xFF) }

/-- `SeriesQ::app_fault` from `cpu.rs`, embedded exactly as written:
in application state it selects `new_pl` from `F[8] bits 4..6`
(`(F[8] & 0x70) >> 4`), records the error code in `S_selector[PS]` and
the instruction word in `F[10..11]`, stores `running := false`
unconditionally, and then either halts (current level 7) or signals
the interrupt line at `new_pl`. -/
def app_fault (st : SeriesQ) (iword0 error_code : Nat) : SeriesQ :=
  if st.F 8 &&& 1 = 0 then sys_fault st iword0 error_code
  else
    let new_pl := (st.F 8 &&& 0x70) >>> 4
    let st1 := { st with
      S_selector := upd st.S_selector PS (error_code &&& 0xFF),
      F := upd (upd st.F 10 (iword0 &&& 0xFF)) 11 ((iword0 &&& 0xFF00) >>> 8),
      running := false }
    if (st.F 8 &&& 0xE) >>> 1 = 7 then { st1 with running := false }
    else { st1 with
      ipl := updB st1.ipl new_pl true,
      icode := upd st1.icode new_pl (error_code &&& 0xFF) }

/-- Record a faulting address into `F[12..15]` (shared prologue of
`read_fault` / `write_fault` / `seg_fault` in `cpu.rs`). -/
def set_fault_addr (st : SeriesQ) (addr : Nat) : SeriesQ :=
  { st with
    F := upd (upd (upd (upd st.F
      12 (addr &&& 0xFF))
      13 ((addr &&& 0xFF00) >>> 8))
      14 ((addr &&& 0xFF0000) >>> 16))
      15 ((addr &&& 0xFF000000) >>> 24) }

/-- `SeriesQ::read_fault` from `cpu.rs`. -/
def read_fault (st : SeriesQ) (iword0 addr : Nat) : SeriesQ :=
  app_fault (set_fault_addr st addr) iword0 READ_FAULT

/-- `SeriesQ::write_fault` from `cpu.rs`. -/
def write_fault (st : SeriesQ) (iword0 addr : Nat) : SeriesQ :=
  app_fault (set_fault_addr st addr) iword0 WRITE_FAULT

/-- `SeriesQ::seg_fault` from `cpu.rs`. -/
def seg_fault (st : SeriesQ) (iword0 addr : Nat) : SeriesQ :=
  app_fault (set_fault_addr st addr) iword0 SEGMENTATION_FAULT

/-- `SeriesQ::pl_set` from `cpu.rs`: write the current PS context to
the link block at `PLBA_base + 16*level`, then load the target entry
block at `PEBA_base + 16*level`, faulting (and stopping) at the first
failed bus access. -/
def pl_set (st : SeriesQ) (mem : Mem) (pl ssr7 : Nat) : SeriesQ × Mem :=
  let new_priority := pl &&& 0x7
  let old_lba2 := st.S_key PS ||| st.S_flags PS <<< 8
    ||| st.F 8 <<< 16 ||| st.S_selector PS <<< 24
  let lbo := (st.PLBA_base + 16 * new_priority) % M32
  match write_w mem lbo (st.S_base PS) with
  | .error _ => (write_fault st 0xFFFF lbo, mem)
  | .ok m1 =>
  match write_w m1 ((lbo + 4) % M32) (st.S_limit PS) with
  | .error _ => (write_fault st 0xFFFF ((lbo + 4) % M32), m1)
  | .ok m2 =>
  match write_w m2 ((lbo + 8) % M32) old_lba2 with
  | .error _ => (write_fault st 0xFFFF ((lbo + 8) % M32), m2)
  | .ok m3 =>
  match write_w m3 ((lbo + 12) % M32) (st.R PC) with
  | .error _ => (write_fault st 0xFFFF ((lbo + 12) % M32), m3)
  | .ok m4 =>
  let ebo := (st.PEBA_base + 16 * new_priority) % M32
  match read_w m4 ebo with
  | .error _ => (read_fault st 0xFFFF ebo, m4)
  | .ok x0 =>
  let stA := { st with S_base := upd st.S_base PS x0 }
  match read_w m4 ((ebo + 4) % M32) with
  | .error _ => (read_fault stA 0xFFFF ((ebo + 4) % M32), m4)
  | .ok x1 =>
  let stB := { stA with S_limit := upd stA.S_limit PS x1 }
  match read_w m4 ((ebo + 8) % M32) with
  | .error _ => (read_fault stB 0xFFFF ((ebo + 8) % M32), m4)
  | .ok x2 =>
  let stC := { stB with
    S_key := upd stB.S_key PS (x2 &&& 0xFF),
    S_flags := upd stB.S_flags PS ((x2 &&& 0xFF00) >>> 8),
    F := upd stB.F 8 ((((x2 &&& 0xFF0000) >>> 16) &&& 0xF1) ||| new_priority <<< 1),
    S_selector := upd stB.S_selector PS ssr7 }
  match read_w m4 ((ebo + 12) % M32) with
  | .error _ => (read_fault stC 0xFFFF ((ebo + 12) % M32), m4)
  | .ok x3 => ({ stC with R := upd stC.R PC x3 }, m4)

/-- `SeriesQ::pl_esc` from `cpu.rs`: escalate iff the target level is
strictly above the current one; the boolean reports whether it did. -/
def pl_esc (st : SeriesQ) (mem : Mem) (pl ssr7 : Nat) : (SeriesQ × Mem) × Bool :=
  let new_priority := pl &&& 0x7
  let old_priority := (st.F 8 &&& 0xE) >>> 1
  if new_priority > old_priority then (pl_set st mem new_priority ssr7, true)
  else ((st, mem), false)

/-- `SeriesQ::pl_retn` from `cpu.rs`: reload the PS context and PC
from the link block at the current priority level. -/
def pl_retn (st : SeriesQ) (mem : Mem) : SeriesQ × Mem :=
  let lbo := (st.PLBA_base + 16 * ((st.F 8 &&& 0xE) >>> 1)) % M32
  match read_w mem lbo with
  | .error _ => (read_fault st 0xFFFF lbo, mem)
  | .ok x0 =>
  let stA := { st with S_base := upd st.S_base PS x0 }
  match read_w mem ((lbo + 4) % M32) with
  | .error _ => (read_fault stA 0xFFFF ((lbo + 4) % M32), mem)
  | .ok x1 =>
  let stB := { stA with S_limit := upd stA.S_limit PS x1 }
  match read_w mem ((lbo + 8) % M32) with
  | .error _ => (read_fault stB 0xFFFF ((lbo + 8) % M32), mem)
  | .ok x2 =>
  let stC := { stB with
    S_key := upd stB.S_key PS (x2 &&& 0xFF),
    S_flags := upd stB.S_flags PS ((x2 &&& 0xFF00) >>> 8),
    F := upd stB.F 8 ((x2 &&& 0xFF0000) >>> 16),
    S_selector := upd stB.S_selector PS ((x2 &&& 0xFF000000) >>> 24) }
  match read_w mem ((lbo + 12) % M32) with
  | .error _ => (read_fault stC 0xFFFF ((lbo + 12) % M32), mem)
  | .ok x3 => ({ stC with R := upd stC.R PC x3 }, mem)

/-- The interrupt-scan of `SeriesQ::run` (`cpu.rs` lines 1445-1450):
`new_pl` starts at 0 and is replaced by each pending line index that
is strictly larger. -/
def highest_pending (st : SeriesQ) : Nat :=
  (List.range 8).foldl (fun acc i => if st.ipl i && decide (i > acc) then i else acc) 0

/-- The interrupt-service phase of one cycle of `SeriesQ::run`
(`cpu.rs` lines 1443-1452), embedded exactly as written: it calls
`pl_esc` on the scanned line and discards the returned boolean —
no pending flag is cleared. -/
def service_interrupts (st : SeriesQ) (mem : Mem) : SeriesQ × Mem :=
  let new_pl := highest_pending st
  let new_code := st.icode new_pl
  (pl_esc st mem (new_pl &&& 0xFF) new_code).1

/-- `SQAddr::gen_offset_rmx` from `cpu.rs` (the `reg_segment`
argument is unused there as well). -/
def gen_offset_rmx (st : SeriesQ) (_reg_segment reg_base reg_offset index : Nat) : Nat :=
  (st.R reg_base + ((st.R reg_offset + index) % M32)) % M32

/-- The instruction-fetch address of `SeriesQ::run` (`cpu.rs` line
701): `cpu.R[PC].wrapping_add(cpu.S_base[PS])`. -/
def fetch_addr (st : SeriesQ) : Nat :=
  (st.R PC + st.S_base PS) % M32

/-- The `RMX BAL` case of `SeriesQ::run` (`cpu.rs` lines 1260-1268):
optionally link (copy segment PS into LS and save PC), then load the
new program segment and jump. -/
def bal_rmx (st : SeriesQ) (iword0 iword1 : Nat) : SeriesQ :=
  let st1 :=
    if rr_reg_d iword0 ≠ 0 then
      let stc := copy_segment st LS PS
      { stc with R := upd stc.R (rr_reg_d iword0) (stc.R PC) }
    else st
  let st2 := copy_segment st1 PS (rm_seg_s iword1)
  { st2 with
    R := upd st2.R PC (gen_offset_rmx st2 (rm_seg_s iword1) (rr_reg_r iword0)
      (rmx_reg_x iword1) (rmx_idx_i iword1)) }

/-- The `SSEL` case of `SeriesQ::run` (`cpu.rs` lines 952-1010):
supervisor check, bound check against `SDTR_len` (the source faults
only when the selector is strictly greater), then descriptor loads at
offsets 0, 4, 8, 9 of `SDTR_base + 12*selector`. -/
def ssel_exec (st : SeriesQ) (mem : Mem) (iword0 : Nat) : SeriesQ :=
  if st.F 8 &&& 1 ≠ 0 ∧ rr_reg_d iword0 ≥ 8 then
    app_fault st iword0 SUPERVISOR_ACCESS
  else if st.R (rr_reg_r iword0) &&& 0xFF > st.SDTR_len then
    app_fault st iword0 OUT_OF_BOUNDS
  else
    let sel := st.R (rr_reg_r iword0) &&& 0xFF
    let st0 := { st with S_selector := upd st.S_selector (rr_reg_d iword0) sel }
    let a0 := (st.SDTR_base + 12 * sel) % M32
    match read_w mem a0 with
    | .error _ => read_fault st0 iword0 a0
    | .ok b =>
    let st1 := { st0 with S_base := upd st0.S_base (rr_reg_d iword0) b }
    let a1 := (st.SDTR_base + 12 * sel + 4) % M32
    match read_w mem a1 with
    | .error _ => read_fault st1 iword0 a1
    | .ok l =>
    let st2 := { st1 with S_limit := upd st1.S_limit (rr_reg_d iword0) l }
    let a2 := (st.SDTR_base + 12 * sel + 8) % M32
    match read_b mem a2 with
    | .error _ => read_fault st2 iword0 a2
    | .ok k =>
    let st3 := { st2 with S_key := upd st2.S_key (rr_reg_d iword0) k }
    let a3 := (st.SDTR_base + 12 * sel + 9) % M32
    match read_b mem a3 with
    | .error _ => read_fault st3 iword0 a3
    | .ok fl => { st3 with S_flags := upd st3.S_flags (rr_reg_d iword0) fl }

/-- The `SSDTR` case of `SeriesQ::run` (`cpu.rs` lines 916-947): the
supervisor check guards only the `SDTR` update; the PEBA/PLBA reads
at `SDTR_base` and `SDTR_base + 12` run unconditionally afterwards,
also when the instruction just faulted. -/
def ssdtr_exec (st : SeriesQ) (mem : Mem) (iword0 : Nat) : SeriesQ :=
  let st1 :=
    if st.F 8 &&& 1 ≠ 0 then app_fault st iword0 SUPERVISOR_ACCESS
    else { st with
      SDTR_len := st.R (rr_reg_r iword0) &&& 0xFF,
      SDTR_base := st.R (rr_reg_d iword0) }
  match read_w mem st1.SDTR_base with
  | .error _ => read_fault st1 iword0 st1.SDTR_base
  | .ok x =>
  let st2 := { st1 with PEBA_base := x }
  let a1 := (st2.SDTR_base + 12) % M32
  match read_w mem a1 with
  | .error _ => read_fault st2 iword0 a1
  | .ok y => { st2 with PLBA_base := y }

/-! ### Concrete states used by the witnesses and counterexamples -/

/-- A baseline CPU state: all registers zero, running, no pending
interrupt lines. -/
def zeroState : SeriesQ :=
  { R := fun _ => 0, S_selector := fun _ => 0, S_base := fun _ => 0,
    S_limit := fun _ => 0, S_key := fun _ => 0, S_flags := fun _ => 0,
    MPK := fun _ => 0, F := fun _ => 0, SDTR_base := 0, SDTR_len := 0,
    PEBA_base := 0, PLBA_base := 0, running := true, ipl := fun _ => false,
    icode := fun _ => 0 }

/-- Application state at priority level 1 with fault level 4:
`F[8] = 0x43` has bit 0 set, bits 1..3 = 1 and bits 4..6 = 4. -/
def c1State : SeriesQ := { zeroState with F := upd zeroState.F 8 0x43 }

/-- State for the priority-level round trip: `PLBA = 0`, `PEBA = 16`,
`F[8] = 0x40`, all PS descriptor registers and PC zero. -/
def c3State : SeriesQ := { zeroState with PEBA_base := 16, F := upd zeroState.F 8 0x40 }

/-- 64 bytes of zeroed memory: link block of level 2 at 32..47 and
entry block of level 2 at 48..63 are in range and aligned. -/
def c3Mem : Mem := List.replicate 64 0

/-- The round trip `pl_set(2, 9)` followed by `pl_retn`. -/
def c3run : SeriesQ × Mem :=
  let p := pl_set c3State c3Mem 2 9
  pl_retn p.1 p.2

/-- Supervisor state at priority level 0 with interrupt line 3 pending
(code 5). -/
def c4State : SeriesQ :=
  { zeroState with
    PEBA_base := 16,
    ipl := updB zeroState.ipl 3 true,
    icode := upd zeroState.icode 3 5 }

/-- 80 bytes of zeroed memory: level-3 link block at 48..63 and
level-3 entry block at 64..79 are in range and aligned. -/
def c4Mem : Mem := List.replicate 80 0

/-- Supervisor state with a one-descriptor table (`SDTR_len = 1`) and
`R[1] = 1`, so SSEL with `reg_r = 1` selects the out-of-table
selector 1. -/
def c7State : SeriesQ := { zeroState with SDTR_len := 1, R := upd zeroState.R 1 1 }

/-- 24-byte memory holding descriptor #1 at offset 12:
base word 1, limit word 2, key 3, flags 4. -/
def c7Mem : Mem := List.replicate 12 0 ++ [1, 0, 0, 0] ++ [2, 0, 0, 0] ++ [3, 4, 0, 0]

/-- Application state (`F[8] = 1`) with `SDTR_base = 0`,
`SDTR_len = 9`, `PEBA_base = 77`, `PLBA_base = 88`. -/
def c10State : SeriesQ :=
  { zeroState with F := upd zeroState.F 8 1, SDTR_len := 9, PEBA_base := 77, PLBA_base := 88 }

/-- 16-byte memory whose word at 0 reads as 1 and whose word at 12
reads as 2. -/
def c10Mem : Mem := [1, 0, 0, 0, 0, 0, 0, 0, 0, 0, 0, 0, 2, 0, 0, 0]

/-- State with `S_base[15] = 100`, `S_base[7] = 0` and `PC = 4`,
separating the two candidate program-segment indices. -/
def c9State : SeriesQ :=
  { zeroState with S_base := upd zeroState.S_base 15 100, R := upd zeroState.R 15 4 }

/-- Memory for the C8 witness: four zero bytes. -/
def c8Mem : Mem := [0, 0, 0, 0]

/-! ### Helper lemmas -/

theorem upd_self (f : Nat → Nat) (i v : Nat) : upd f i v i = v := by
  simp [upd]

theorem upd_ne (f : Nat → Nat) (i v j : Nat) (h : j ≠ i) : upd f i v j = f j := by
  simp [upd, h]

theorem app_fault_preserves_SDTR (st : SeriesQ) (i c : Nat) :
    (app_fault st i c).SDTR_base = st.SDTR_base ∧
    (app_fault st i c).SDTR_len = st.SDTR_len := by
  unfold app_fault sys_fault
  repeat' split
  all_goals simp

theorem app_fault_app_effects (st : SeriesQ) (i c : Nat) (h : st.F 8 &&& 1 = 1) :
    (app_fault st i c).S_selector PS = c &&& 0xFF ∧
    (app_fault st i c).F 10 = i &&& 0xFF ∧
    (app_fault st i c).F 11 = (i &&& 0xFF00) >>> 8 := by
  have h0 : ¬(st.F 8 &&& 1 = 0) := fun hh => by simp [hh] at h
  unfold app_fault
  rw [if_neg h0]
  split
  all_goals simp [upd, PS]

theorem getD_set_eq (l : List Nat) (i j v : Nat) (hij : i = j) (h : i < l.length) :
    (l.set i v).getD j 0 = v := by
  subst hij
  rw [List.getD_eq_getElem _ _ (by simpa using h)]
  exact List.getElem_set_self (h := by simpa using h)

theorem getD_set_ne (l : List Nat) (i j v : Nat) (hne : i ≠ j) (hj : j < l.length) :
    (l.set i v).getD j 0 = l.getD j 0 := by
  rw [List.getD_eq_getElem _ _ (by simpa using hj), List.getD_eq_getElem _ _ hj]
  exact List.getElem_set_ne hne _

/-! ### Claims -/

/-- C1, counterexample. In application state with `F[8] = 0x43`
(current priority level 1 ≠ 7, fault level field 4), an application
fault clears `running` (the claim says the machine keeps running) and
signals interrupt line 4 — the level taken from `F[8]` bits 4..6 —
not line 1, the level named by `F[8]` bits 1..3. -/
theorem app_fault_claim_c1_cex :
    c1State.F 8 &&& 1 = 1 ∧
    (c1State.F 8 &&& 0xE) >>> 1 = 1 ∧
    (c1State.F 8 &&& 0x70) >>> 4 = 4 ∧
    (app_fault c1State 0xFFFF ILLEGAL_INSTRUCTION).running = false ∧
    (app_fault c1State 0xFFFF ILLEGAL_INSTRUCTION).ipl 1 = false ∧
    (app_fault c1State 0xFFFF ILLEGAL_INSTRUCTION).ipl 4 = true := by
  decide

/-- C1, amended. For every application fault raised in application
state with current priority level (`F[8]` bits 1..3) not equal to 7,
the handler selects the new priority level from `F[8]` bits 4..6 and
sets the pending flag and code of the interrupt line at that level,
but it clears `running` unconditionally: the machine halts after every
application fault, not only when the current level is 7. -/
theorem app_fault_signals_bits46_and_halts (st : SeriesQ) (iword0 code : Nat)
    (happ : st.F 8 &&& 1 = 1) (hlvl : (st.F 8 &&& 0xE) >>> 1 ≠ 7) :
    (app_fault st iword0 code).running = false ∧
    (app_fault st iword0 code).ipl ((st.F 8 &&& 0x70) >>> 4) = true ∧
    (app_fault st iword0 code).icode ((st.F 8 &&& 0x70) >>> 4) = code &&& 0xFF := by
  have h0 : ¬(st.F 8 &&& 1 = 0) := fun hh => by simp [hh] at happ
  unfold app_fault
  rw [if_neg h0, if_neg hlvl]
  refine ⟨rfl, ?_, ?_⟩
  all_goals simp [updB, upd]

/-- C1, witness: the amended theorem applied at `c1State`. -/
theorem app_fault_signals_bits46_and_halts_witness :
    c1State.F 8 &&& 1 = 1 ∧ (c1State.F 8 &&& 0xE) >>> 1 ≠ 7 ∧
    ((app_fault c1State 0xFFFF ILLEGAL_INSTRUCTION).running = false ∧
     (app_fault c1State 0xFFFF ILLEGAL_INSTRUCTION).ipl ((c1State.F 8 &&& 0x70) >>> 4) = true ∧
     (app_fault c1State 0xFFFF ILLEGAL_INSTRUCTION).icode ((c1State.F 8 &&& 0x70) >>> 4)
       = ILLEGAL_INSTRUCTION &&& 0xFF) :=
  ⟨by decide, by decide,
    app_fault_signals_bits46_and_halts c1State 0xFFFF ILLEGAL_INSTRUCTION
      (by decide) (by decide)⟩

/-- C2. The word read of the reference memory device is not the
little-endian composition: on bytes `[0x78, 0x56, 0x34, 0x12]` it
returns `0x8B08` (high byte shifted by 3, third byte by 8) while the
little-endian value — which the specification mandates — is
`0x12345678`. -/
theorem read_w_is_not_little_endian :
    read_w [0x78, 0x56, 0x34, 0x12] 0 = Except.ok 0x8B08 ∧
    (List.getD [0x78, 0x56, 0x34, 0x12] 0 0
      ||| List.getD [0x78, 0x56, 0x34, 0x12] 1 0 <<< 8
      ||| List.getD [0x78, 0x56, 0x34, 0x12] 2 0 <<< 16
      ||| List.getD [0x78, 0x56, 0x34, 0x12] 3 0 <<< 24) = 0x12345678 ∧
    (0x8B08 : Nat) ≠ 0x12345678 := by
  refine ⟨rfl, by decide, by decide⟩

/-- C3. `pl_set(2, 9)` followed by `pl_retn` on `c3State` (where all
bus accesses succeed: the final state is still running, so no fault
path was taken) does not restore `F[8]`: the link block is written
with the correct little-endian `write_w` but read back through the
broken `read_w`, so the saved `F[8] = 0x40` comes back as 0. -/
theorem pl_set_retn_does_not_restore :
    c3State.F 8 = 0x40 ∧
    (c3run.1).running = true ∧
    (c3run.1).F 8 = 0 ∧
    (c3run.1).F 8 ≠ c3State.F 8 := by
  decide

/-- C4. In the interrupt-service phase on `c4State` (line 3 pending,
current level 0), the escalation is accepted (`pl_esc` returns true)
but the pending flag of line 3 is still set afterwards: the run loop
discards the boolean and never clears any pending flag. -/
theorem accepted_interrupt_pending_not_cleared :
    highest_pending c4State = 3 ∧
    (pl_esc c4State c4Mem 3 5).2 = true ∧
    ((service_interrupts c4State c4Mem).1).F 8 = 6 ∧
    ((service_interrupts c4State c4Mem).1).ipl 3 = true := by
  decide

/-- C6. ADD-with-carry combines the two carries with `&&`, so with an
incoming carry the resulting C flag is cleared even when the exact
sum reaches `2^32`: `alu_add 0xFFFFFFFF 0` with C set and carry-in
yields result 0 with flags `0x41` (C bit clear), although
`0xFFFFFFFF + 0 + 1 ≥ 2^32`. -/
theorem alu_add_carry_in_loses_carry_out :
    alu_add 0xFFFFFFFF 0 0b00000100 true = (0, 0x41) ∧
    (0x41 &&& 0b00000100 : Nat) = 0 ∧
    0xFFFFFFFF + 0 + 1 ≥ M32 := by
  refine ⟨by decide, by decide, by decide⟩

/-- C9, counterexample. Instruction fetch does not use segment 15: on
`c9State` (with `S_base[15] = 100`, `S_base[7] = 0`, `PC = 4`) the
fetch address is 4, not the 104 the claim computes from
`S_base[15] + PC`. -/
theorem fetch_addr_not_segment_15 :
    fetch_addr c9State = 4 ∧
    (c9State.S_base 15 + c9State.R 15) % M32 = 104 ∧
    (4 : Nat) ≠ 104 := by
  decide

/-- C9, amended. The program segment PS is segment index 7 and the
link segment LS is segment index 6: instruction fetch computes its
address as `R[PC] + S_base[7]` (wrapping), and RMX BAL with
`reg_d ≠ 0` copies segment 7's descriptor registers into segment 6
before loading the new program segment. -/
theorem ps_is_7_ls_is_6_bal_links :
    PS = 7 ∧ LS = 6 ∧
    (∀ st : SeriesQ, fetch_addr st = (st.R 15 + st.S_base 7) % M32) ∧
    (∀ st : SeriesQ, ∀ i0 i1 : Nat, rr_reg_d i0 ≠ 0 →
      (bal_rmx st i0 i1).S_selector 6 = st.S_selector 7 ∧
      (bal_rmx st i0 i1).S_base 6 = st.S_base 7 ∧
      (bal_rmx st i0 i1).S_limit 6 = st.S_limit 7 ∧
      (bal_rmx st i0 i1).S_key 6 = st.S_key 7 ∧
      (bal_rmx st i0 i1).S_flags 6 = st.S_flags 7) := by
  refine ⟨rfl, rfl, fun st => rfl, fun st i0 i1 h => ?_⟩
  simp [bal_rmx, copy_segment, upd, h, PS, LS]

/-- C9, witness: the amended theorem applied at `c9State` with the
BAL instruction words `0x5F10` / `0x0000` (`reg_d = 1`). -/
theorem ps_is_7_ls_is_6_bal_links_witness :
    rr_reg_d 0x5F10 ≠ 0 ∧
    (bal_rmx c9State 0x5F10 0).S_base 6 = c9State.S_base 7 :=
  ⟨by decide, ((ps_is_7_ls_is_6_bal_links).2.2.2 c9State 0x5F10 0 (by decide)).2.1⟩

/-- C10. SSDTR in application state raises a SUPERVISOR_ACCESS fault
(the fault selector byte `0xFF` lands in `S_selector[PS]` and the
instruction word in `F[10..11]`) and leaves `SDTR_base`/`SDTR_len`
unchanged — yet it still performs the two word-reads at the old
`SDTR_base` and `SDTR_base + 12` and overwrites `PEBA_base` and
`PLBA_base` with the values read. -/
theorem ssdtr_app_fault_still_overwrites (st : SeriesQ) (mem : Mem) (iw v1 v2 : Nat)
    (happ : st.F 8 &&& 1 = 1)
    (h1 : read_w mem st.SDTR_base = Except.ok v1)
    (h2 : read_w mem ((st.SDTR_base + 12) % M32) = Except.ok v2) :
    (ssdtr_exec st mem iw).SDTR_base = st.SDTR_base ∧
    (ssdtr_exec st mem iw).SDTR_len = st.SDTR_len ∧
    (ssdtr_exec st mem iw).PEBA_base = v1 ∧
    (ssdtr_exec st mem iw).PLBA_base = v2 ∧
    (ssdtr_exec st mem iw).S_selector PS = SUPERVISOR_ACCESS &&& 0xFF ∧
    (ssdtr_exec st mem iw).F 10 = iw &&& 0xFF ∧
    (ssdtr_exec st mem iw).F 11 = (iw &&& 0xFF00) >>> 8 := by
  have h0 : st.F 8 &&& 1 ≠ 0 := fun hh => by simp [hh] at happ
  obtain ⟨hb, hl⟩ := app_fault_preserves_SDTR st iw SUPERVISOR_ACCESS
  obtain ⟨hsel, hf10, hf11⟩ := app_fault_app_effects st iw SUPERVISOR_ACCESS happ
  have happ' : st.F 8 % 2 = 1 := by rw [← Nat.and_one_is_mod]; exact happ
  simp [ssdtr_exec, happ', hb, h1, h2, hl, hsel, hf10, hf11]

/-- C10, witness: the theorem applied at `c10State` / `c10Mem` with
instruction word `0x25A3`. -/
theorem ssdtr_app_fault_still_overwrites_witness :
    c10State.F 8 &&& 1 = 1 ∧
    ((ssdtr_exec c10State c10Mem 0x25A3).SDTR_base = c10State.SDTR_base ∧
     (ssdtr_exec c10State c10Mem 0x25A3).SDTR_len = c10State.SDTR_len ∧
     (ssdtr_exec c10State c10Mem 0x25A3).PEBA_base = 1 ∧
     (ssdtr_exec c10State c10Mem 0x25A3).PLBA_base = 2 ∧
     (ssdtr_exec c10State c10Mem 0x25A3).S_selector PS = SUPERVISOR_ACCESS &&& 0xFF ∧
     (ssdtr_exec c10State c10Mem 0x25A3).F 10 = 0x25A3 &&& 0xFF ∧
     (ssdtr_exec c10State c10Mem 0x25A3).F 11 = (0x25A3 &&& 0xFF00) >>> 8) :=
  ⟨by decide,
    ssdtr_app_fault_still_overwrites c10State c10Mem 0x25A3 1 2
      (by decide) (by rfl) (by rfl)⟩

/-- C5. `access_check` succeeds iff `S_base[s] ≤ a < S_limit[s]` and
(`S_key[s]` is in MPK or the CPU is in supervisor state), and, in
application state, the W / X / R permission bit of `S_flags[s]`
matching the access kind is set (permission bits are ignored in
supervisor state); in particular any access with `a ≥ S_limit[s]`
fails. -/
theorem access_check_characterization (st : SeriesQ) (s a : Nat) (w x : Bool) :
    (access_check st s a w x = true ↔
      (st.S_base s ≤ a ∧ a < st.S_limit s ∧
        ((∃ i < 16, st.MPK i = st.S_key s) ∨ st.F 8 &&& 1 = 0) ∧
        (st.F 8 &&& 1 = 1 →
          (if w then st.S_flags s &&& 0b01000000 ≠ 0
           else if x then st.S_flags s &&& 0b00100000 ≠ 0
           else st.S_flags s &&& 0b10000000 ≠ 0)))) ∧
    (st.S_limit s ≤ a → access_check st s a w x = false) := by
  have hb : st.F 8 &&& 1 = 0 ∨ st.F 8 &&& 1 = 1 := by
    rw [Nat.and_one_is_mod]
    exact Nat.mod_two_eq_zero_or_one _
  have hiff : access_check st s a w x = true ↔
      (st.S_base s ≤ a ∧ a < st.S_limit s ∧
        ((∃ i < 16, st.MPK i = st.S_key s) ∨ st.F 8 &&& 1 = 0) ∧
        (st.F 8 &&& 1 = 1 →
          (if w then st.S_flags s &&& 0b01000000 ≠ 0
           else if x then st.S_flags s &&& 0b00100000 ≠ 0
           else st.S_flags s &&& 0b10000000 ≠ 0))) := by
    rcases hb with h0 | h1
    · simp only [access_check, mpk_contains, h0]
      simp [List.any_eq_true, List.mem_range, decide_eq_true_iff, h0, and_comm]
    · have h1' : ¬(st.F 8 &&& 1 = 0) := by omega
      simp only [access_check, mpk_contains, h1]
      cases w <;> cases x <;>
        simp [List.any_eq_true, List.mem_range, decide_eq_true_iff, h1', h1] <;>
        tauto
  refine ⟨hiff, fun hle => ?_⟩
  cases hv : access_check st s a w x
  · rfl
  · have h2 := (hiff.mp hv).2.1
    omega

/-- C5, witness: the characterization applied at `c1State`, segment 0,
address 5 — the address is beyond the (zero) limit, so the check
fails. -/
theorem access_check_characterization_witness :
    c1State.S_limit 0 ≤ 5 ∧ access_check c1State 0 5 false false = false :=
  ⟨by decide, (access_check_characterization c1State 0 5 false false).2 (by decide)⟩

/-- C7, counterexample. On `c7State` (`SDTR_len = 1`, supervisor
state) SSEL with selector 1 — which the claim calls out of range,
valid selectors being `0..SDTR_len-1` — does not fault
(no interrupt line is raised, `running` stays true) and instead loads
descriptor #1 into segment 2: the source faults only when the
selector is strictly greater than `SDTR_len`. -/
theorem ssel_selector_equal_len_accepted :
    c7State.R (rr_reg_r 0x2721) &&& 0xFF = 1 ∧
    c7State.SDTR_len = 1 ∧
    (ssel_exec c7State c7Mem 0x2721).running = true ∧
    (ssel_exec c7State c7Mem 0x2721).ipl 7 = false ∧
    (ssel_exec c7State c7Mem 0x2721).S_selector 2 = 1 ∧
    (ssel_exec c7State c7Mem 0x2721).S_base 2 = 1 ∧
    (ssel_exec c7State c7Mem 0x2721).S_limit 2 = 2 ∧
    (ssel_exec c7State c7Mem 0x2721).S_key 2 = 3 ∧
    (ssel_exec c7State c7Mem 0x2721).S_flags 2 = 4 := by
  decide

/-- C7, amended. When the supervisor check passes, SSEL raises a
fault with code OUT_OF_BOUNDS iff the selector byte is strictly
greater than `SDTR_len` (a selector equal to `SDTR_len` is accepted);
for an accepted selector it loads `S_base`, `S_limit`, `S_key`,
`S_flags` of the destination segment from the descriptor at
`SDTR_base + 12*selector`, offsets 0, 4, 8, 9. -/
theorem ssel_bound_check_and_loads (st : SeriesQ) (mem : Mem) (iw : Nat)
    (hsup : ¬(st.F 8 &&& 1 ≠ 0 ∧ rr_reg_d iw ≥ 8)) :
    (st.R (rr_reg_r iw) &&& 0xFF > st.SDTR_len →
      ssel_exec st mem iw = app_fault st iw OUT_OF_BOUNDS) ∧
    (∀ b l k fl : Nat, st.R (rr_reg_r iw) &&& 0xFF ≤ st.SDTR_len →
      read_w mem ((st.SDTR_base + 12 * (st.R (rr_reg_r iw) &&& 0xFF)) % M32)
        = Except.ok b →
      read_w mem ((st.SDTR_base + 12 * (st.R (rr_reg_r iw) &&& 0xFF) + 4) % M32)
        = Except.ok l →
      read_b mem ((st.SDTR_base + 12 * (st.R (rr_reg_r iw) &&& 0xFF) + 8) % M32)
        = Except.ok k →
      read_b mem ((st.SDTR_base + 12 * (st.R (rr_reg_r iw) &&& 0xFF) + 9) % M32)
        = Except.ok fl →
      (ssel_exec st mem iw).S_selector (rr_reg_d iw) = st.R (rr_reg_r iw) &&& 0xFF ∧
      (ssel_exec st mem iw).S_base (rr_reg_d iw) = b ∧
      (ssel_exec st mem iw).S_limit (rr_reg_d iw) = l ∧
      (ssel_exec st mem iw).S_key (rr_reg_d iw) = k ∧
      (ssel_exec st mem iw).S_flags (rr_reg_d iw) = fl) := by
  constructor
  · intro hgt
    have hng : ¬(st.R (rr_reg_r iw) &&& 0xFF ≤ st.SDTR_len) := by omega
    unfold ssel_exec
    rw [if_neg hsup, if_pos hgt]
  · intro b l k fl hle h0 h1 h2 h3
    have hng : ¬(st.R (rr_reg_r iw) &&& 0xFF > st.SDTR_len) := by omega
    simp only [ssel_exec, if_neg hsup, if_neg hng, h0, h1, h2, h3]
    simp [upd]

/-- C7, witness: the amended theorem's in-range branch applied at
`c7State` / `c7Mem` with selector 1 (equal to `SDTR_len`). -/
theorem ssel_bound_check_and_loads_witness :
    c7State.R (rr_reg_r 0x2721) &&& 0xFF ≤ c7State.SDTR_len ∧
    ((ssel_exec c7State c7Mem 0x2721).S_selector (rr_reg_d 0x2721)
        = c7State.R (rr_reg_r 0x2721) &&& 0xFF ∧
     (ssel_exec c7State c7Mem 0x2721).S_base (rr_reg_d 0x2721) = 1 ∧
     (ssel_exec c7State c7Mem 0x2721).S_limit (rr_reg_d 0x2721) = 2 ∧
     (ssel_exec c7State c7Mem 0x2721).S_key (rr_reg_d 0x2721) = 3 ∧
     (ssel_exec c7State c7Mem 0x2721).S_flags (rr_reg_d 0x2721) = 4) :=
  ⟨by decide,
    (ssel_bound_check_and_loads c7State c7Mem 0x2721 (by decide)).2 1 2 3 4
      (by decide) (by rfl) (by rfl) (by rfl) (by rfl)⟩

/-- C8. For every 32-bit word `w`, 4-aligned address `a` with `a + 3`
in range of the reference memory device, and `k ∈ {0,1,2,3}`: after
`write_w a w` succeeds, `read_b (a+k)` returns `(w >>> 8k) &&& 0xFF`
— the write side is little-endian and byte reads see exactly the
stored bytes. -/
theorem write_w_read_b_little_endian (mem mem' : Mem) (a w k : Nat)
    (hw : w < M32) (hal : a % 4 = 0) (hin : a + 3 < vlen mem) (hk : k < 4)
    (hok : write_w mem a w = Except.ok mem') :
    read_b mem' (a + k) = Except.ok ((w >>> (8 * k)) &&& 0xFF) := by
  have hvl : vlen mem < M32 := Nat.mod_lt _ (by decide)
  have h3 : a + 3 < M32 := lt_trans hin hvl
  have hm3 : (a + 3) % M32 = a + 3 := Nat.mod_eq_of_lt h3
  have hm2 : (a + 2) % M32 = a + 2 := Nat.mod_eq_of_lt (by omega)
  have hm1 : (a + 1) % M32 = a + 1 := Nat.mod_eq_of_lt (by omega)
  have hlen : a + 3 < mem.length := lt_of_lt_of_le hin (Nat.mod_le _ _)
  unfold write_w at hok
  rw [hm3, hm2, hm1] at hok
  rw [if_neg (by omega), if_neg (by simp [hal])] at hok
  injection hok with hmem
  subst hmem
  unfold read_b
  rw [if_neg (by unfold vlen at hin ⊢; simp only [List.length_set]; omega)]
  have hL3 : a + 3 < ((mem.set (a + 3) ((w >>> 24) &&& 0xFF)).set (a + 2)
      ((w >>> 16) &&& 0xFF)).length := by
    simp only [List.length_set]; omega
  interval_cases k
  · rw [getD_set_eq _ _ _ _ (by omega) (by simp only [List.length_set]; omega)]
    rfl
  · rw [getD_set_ne _ _ _ _ (by omega) (by simp only [List.length_set]; omega)]
    rw [getD_set_eq _ _ _ _ (by omega) (by simp only [List.length_set]; omega)]
  · rw [getD_set_ne _ _ _ _ (by omega) (by simp only [List.length_set]; omega)]
    rw [getD_set_ne _ _ _ _ (by omega) (by simp only [List.length_set]; omega)]
    rw [getD_set_eq _ _ _ _ (by omega) (by simp only [List.length_set]; omega)]
  · rw [getD_set_ne _ _ _ _ (by omega) (by simp only [List.length_set]; omega)]
    rw [getD_set_ne _ _ _ _ (by omega) (by simp only [List.length_set]; omega)]
    rw [getD_set_ne _ _ _ _ (by omega) (by simp only [List.length_set]; omega)]
    rw [getD_set_eq _ _ _ _ (by omega) (by omega)]

/-- C8, witness: writing `0x12345678` at address 0 of a 4-byte memory
and reading back byte 1 yields `0x56`. -/
theorem write_w_read_b_little_endian_witness :
    write_w c8Mem 0 0x12345678 = Except.ok [0x78, 0x56, 0x34, 0x12] ∧
    read_b [0x78, 0x56, 0x34, 0x12] (0 + 1) = Except.ok ((0x12345678 >>> (8 * 1)) &&& 0xFF) :=
  ⟨by rfl,
    write_w_read_b_little_endian c8Mem [0x78, 0x56, 0x34, 0x12] 0 0x12345678 1
      (by decide) (by decide) (by decide) (by decide) (by rfl)⟩

end RustFrame
